import Mathlib

/-!
Shallow embedding of the SWAT weather-data extraction pipeline of
`src/streamlit_app.py`, covering `insert_date_header`,
`process_climate_data_from_array` and `process_large_climate_data`.

Modelling decisions:
* Planar geometry is specialised to axis-aligned rectangles with rational
  coordinates: the boundary shapefile is a list of rectangular features and
  each grid cell rectangle is the axis-aligned square the source builds.
  The call `gpd.overlay(shape_file, grid_poly, how='intersection')` returns,
  in feature order, the polygonal (positive-area) pieces of the pairwise
  intersections of the boundary features with the cell rectangle
  (`keep_geom_type` drops line/point touches); on rectangular features this
  is `overlayPieces` below.
* Numeric cell values travel through the pipeline only to be printed, so a
  cell's time series is carried as the list of decimal strings that
  `pandas.Series.to_csv(header=False, index=False)` emits, one per line.
* File writes are modelled by accumulating `(filename, content)` pairs.
  The per-cell `try/except` is modelled by letting the geometry-overlay
  call return `Except` (a geometry failure raises), and the swallowed
  failure of `insert_date_header` by a Boolean success flag per station id.
* Python exceptions that escape `process_climate_data_from_array`
  (IndexError from `data_array.lat[1]` with fewer than two latitude samples,
  or from `data_array[0, i, j]` with an empty time axis) are modelled by the
  `ScanOutcome.raised` constructor; the caller
  `process_large_climate_data` catches them, reports an error and returns 0.
-/

namespace SWAT

attribute [local semireducible] Rat.add Rat.sub Rat.mul Rat.inv

/-- Axis-aligned rectangle in the (lon, lat) plane with rational endpoints;
`x` is longitude, `y` is latitude, matching shapely's `(x, y) = (lon, lat)`. -/
structure Rect where
  minx : ℚ
  miny : ℚ
  maxx : ℚ
  maxy : ℚ
deriving DecidableEq, Repr

/-- Area of an axis-aligned rectangle, clamped at zero for degenerate or
inverted rectangles (shapely gives such intersections area 0). -/
def Rect.area (r : Rect) : ℚ :=
  max (r.maxx - r.minx) 0 * max (r.maxy - r.miny) 0

/-- Intersection of two axis-aligned rectangles (possibly degenerate). -/
def Rect.inter (a b : Rect) : Rect :=
  ⟨max a.minx b.minx, max a.miny b.miny, min a.maxx b.maxx, min a.maxy b.maxy⟩

/-- Whether a rectangle has strictly positive extent on both axes. -/
def Rect.proper (r : Rect) : Bool :=
  decide (r.minx < r.maxx) && decide (r.miny < r.maxy)

/-- The boundary shapefile: an ordered list of rectangular features
(a multi-feature boundary is a list of length greater than one). -/
abbrev Boundary := List Rect

/-- Model of `gpd.overlay(shape_file, grid_poly, how='intersection')` for a
boundary made of rectangular features: one row per feature whose
intersection with the cell rectangle is a genuine polygon (positive area);
line/point-only touches and empty intersections produce no row
(`keep_geom_type` behaviour), and rows keep the boundary's feature order. -/
def overlayPieces (shape : Boundary) (g : Rect) : List Rect :=
  (shape.map fun f => f.inter g).filter Rect.proper

/-- Sum of the areas of the per-feature intersections of a boundary with a
rectangle.  Each summand is nonnegative, so the sum is strictly positive
exactly when the planar region `rect ∩ boundary` has strictly positive
area (see `interAreaSum_pos_iff_volume_pos`). -/
def interAreaSum (shape : Boundary) (g : Rect) : ℚ :=
  (shape.map fun f => (f.inter g).area).sum

/-- The planar point set of a rectangle, used to relate the rational area
bookkeeping to the genuine planar (Lebesgue) area. -/
def Rect.toSet (r : Rect) : Set (ℝ × ℝ) :=
  Set.Icc (r.minx : ℝ) (r.maxx : ℝ) ×ˢ Set.Icc (r.miny : ℝ) (r.maxy : ℝ)

/-- The planar region covered by the boundary's features. -/
def boundarySet (shape : Boundary) : Set (ℝ × ℝ) :=
  { p | ∃ f ∈ shape, p ∈ Rect.toSet f }

/-- The cell rectangle built at lines 136-143 of the source: an axis-aligned
square of side `resolution` centred on the cell centre `(lon, lat)`. -/
def cellRect (resolution latC lonC : ℚ) : Rect :=
  ⟨lonC - resolution / 2, latC - resolution / 2,
   lonC + resolution / 2, latC + resolution / 2⟩

/-- The fraction `intersect_poly.area[0] / grid_poly.area[0]` computed at
line 151 of the source: the area of the FIRST overlay piece (row 0 of the
overlay result) divided by the cell rectangle's area.  In ℚ, division by a
zero area yields 0, matching the source where a 0/0 numpy division yields
`nan` and the `fraction > 0` test then fails. -/
def fracOfPieces (pieces : List Rect) (g : Rect) : ℚ :=
  (pieces.headD ⟨0, 0, 0, 0⟩).area / g.area

/-- The fraction the scan computes for a cell rectangle against the
boundary (source lines 148-151). -/
def cellFraction (shape : Boundary) (g : Rect) : ℚ :=
  fracOfPieces (overlayPieces shape g) g

/-- Fraction following the specification's words (`fraction =
intersectionArea / rectangleArea` with the TOTAL intersection area against
the whole boundary); used only to compare against `cellFraction`. -/
def specFraction (shape : Boundary) (g : Rect) : ℚ :=
  interAreaSum shape g / g.area

/-- Model of Python `start_date.replace('-', '')`: drop every dash. -/
def removeDashes (s : String) : String :=
  String.mk (s.data.filter fun c => c ≠ '-')

/-- Content `pandas.Series.to_csv(header=False, index=False)` writes for a
time series: one value per line, each line newline-terminated, no header
and no index column. -/
def seriesCsv (vals : List String) : String :=
  String.join (vals.map fun v => v ++ "\n")

/-- Model of `insert_date_header` (source lines 15-25): rewrite the file as
the date string, a newline, then the previous content.  Any exception is
caught inside the function (only an error message is shown), so on failure
the function still returns and the file keeps its previous content. -/
def insert_date_header (ok : Bool) (dateString content : String) : String :=
  if ok then dateString ++ "\n" ++ content else content

/-- A created virtual station: sequential id, generated name
`data_type.upper() ++ id`, cell-centre coordinates, and the cell's
chronological series of (rendered) values. -/
structure Station where
  id : ℕ
  name : String
  lat : ℚ
  lon : ℚ
  series : List String
deriving DecidableEq, Repr

/-- Mutable state of the scan loop: the next station id `idx` (starts at 1),
the stations appended so far in creation order, and the record files written
so far as `(filename, content)` pairs. -/
structure ScanState where
  idx : ℕ
  stations : List Station
  files : List (String × String)
deriving DecidableEq, Repr

/-- The cropped data array handed to `process_climate_data_from_array`:
coordinate vectors, the length of the time axis, and for each spatial index
pair `(i, j)` the rendered chronological value series of that cell. -/
structure DataArray where
  timeLen : ℕ
  latCoords : List ℚ
  lonCoords : List ℚ
  values : ℕ → ℕ → List String

/-- Row-major visiting order of the scan: latitude index `i` outer,
longitude index `j` inner (source lines 129-130). -/
def cellList (nlat nlon : ℕ) : List (ℕ × ℕ) :=
  (List.range nlat).flatMap fun i => (List.range nlon).map fun j => (i, j)

/-- All index pairs of the cropped grid in visiting order. -/
def gridCells (da : DataArray) : List (ℕ × ℕ) :=
  cellList da.latCoords.length da.lonCoords.length

/-- `abs(float(data_array.lat[1] - data_array.lat[0]))` (source line 106);
meaningful only when at least two latitude samples exist. -/
def resolutionOf (da : DataArray) : ℚ :=
  |da.latCoords.getD 1 0 - da.latCoords.getD 0 0|

/-- The cell rectangle of index pair `c` in the cropped grid. -/
def cellRectAt (da : DataArray) (c : ℕ × ℕ) : Rect :=
  cellRect (resolutionOf da) (da.latCoords.getD c.1 0) (da.lonCoords.getD c.2 0)

/-- Model of Python `str.upper()`: uppercase every character. -/
def strUpper (s : String) : String :=
  String.mk (s.data.map Char.toUpper)

/-- Station created for the cell visited with station id `k`
(source lines 154-171): name `data_type.upper()` followed by the id. -/
def mkStation (da : DataArray) (dataType : String) (k : ℕ) (c : ℕ × ℕ) : Station :=
  ⟨k, strUpper dataType ++ toString k,
   da.latCoords.getD c.1 0, da.lonCoords.getD c.2 0, da.values c.1 c.2⟩

/-- Record file written for the cell visited with station id `k`
(source lines 157-163): filename `data_type.upper() ++ k ++ ".csv"`,
content the bare series CSV with the compact start date inserted on top
when the insertion succeeds. -/
def mkRecord (da : DataArray) (insOk : ℕ → Bool) (startDate dataType : String)
    (k : ℕ) (c : ℕ × ℕ) : String × String :=
  (strUpper dataType ++ toString k ++ ".csv",
   insert_date_header (insOk k) (removeDashes startDate)
     (seriesCsv (da.values c.1 c.2)))

/-- Whether the scan creates a station at a cell rectangle, given the
geometry-overlay function `ov` (source lines 146-153): the overlay must not
raise, must return at least one row, and the first row's area divided by
the rectangle area must be strictly positive. -/
def cellQual (ov : Rect → Except Unit (List Rect)) (g : Rect) : Bool :=
  match ov g with
  | .error _ => false
  | .ok pieces => decide (0 < pieces.length) && decide (0 < fracOfPieces pieces g)

/-- Body of the per-cell loop (source lines 129-177): build the cell
rectangle, run the overlay inside `try` (a raise skips the cell), and on a
qualifying fraction write the record file, then append station metadata and
advance the id counter. -/
def processCell (ov : Rect → Except Unit (List Rect)) (insOk : ℕ → Bool)
    (da : DataArray) (res : ℚ) (startDate dataType : String)
    (st : ScanState) (c : ℕ × ℕ) : ScanState :=
  let latC := da.latCoords.getD c.1 0
  let lonC := da.lonCoords.getD c.2 0
  let g := cellRect res latC lonC
  match ov g with
  | .error _ => st
  | .ok pieces =>
    if 0 < pieces.length then
      if 0 < fracOfPieces pieces g then
        { idx := st.idx + 1,
          stations := st.stations ++ [mkStation da dataType st.idx c],
          files := st.files ++ [mkRecord da insOk startDate dataType st.idx c] }
      else st
    else st

/-- Outcome of `process_climate_data_from_array`: an escaped Python
exception, the early `return 0` with the "No data cells found" warning, or
a completed scan with the final state (the source then writes the registry
and returns `idx - 1`). -/
inductive ScanOutcome where
  | raised (msg : String)
  | noCells
  | done (st : ScanState)
deriving DecidableEq, Repr

/-- `process_climate_data_from_array` (source lines 102-190) with the
geometry overlay and the record-header insertion abstracted as parameters:
derive the resolution from the first two cropped latitude samples (an
IndexError escapes when fewer than two exist), return 0 with a warning when
the cropped grid has no cells, raise when the time axis is empty (the
coordinate read `data_array[0, i, j]` indexes time position 0), and
otherwise fold the per-cell body over the grid in row-major order. -/
def processArrayWith (ov : Rect → Except Unit (List Rect)) (insOk : ℕ → Bool)
    (da : DataArray) (startDate dataType : String) : ScanOutcome :=
  if da.latCoords.length < 2 then .raised "IndexError: list index out of range"
  else if da.latCoords.length * da.lonCoords.length = 0 then .noCells
  else if da.timeLen = 0 then .raised "IndexError: index 0 is out of bounds"
  else .done ((gridCells da).foldl
    (processCell ov insOk da (resolutionOf da) startDate dataType) ⟨1, [], []⟩)

/-- The geometry overlay of the real scan: `gpd.overlay` of the boundary
features against the cell rectangle, never raising. -/
def stdOv (shape : Boundary) : Rect → Except Unit (List Rect) :=
  fun g => .ok (overlayPieces shape g)

/-- `process_climate_data_from_array` with its real collaborators: the
geopandas overlay against `shape` and an always-succeeding header
insertion.  `endDate` is received but never used by the source function. -/
def process_climate_data_from_array (da : DataArray) (shape : Boundary)
    (startDate endDate dataType : String) : ScanOutcome :=
  let _ := endDate
  processArrayWith (stdOv shape) (fun _ => true) da startDate dataType

/-- Value the source function returns to its caller on each outcome
(on `raised` the function itself returns nothing; the caller's handler
returns 0, see `processLargeWith`). -/
def ScanOutcome.count : ScanOutcome → ℕ
  | .raised _ => 0
  | .noCells => 0
  | .done st => st.idx - 1

/-- A heterogeneous entry of the four Python metadata lists (`station_ids`,
`station_names`, `lats`, `lons`): each starts with a header string and then
holds integers, strings or floats. -/
inductive Cell where
  | str (s : String)
  | nat (n : ℕ)
  | rat (q : ℚ)
deriving DecidableEq, Repr

/-- The `station_ids` list (source lines 109 and 166): the placeholder
string `'ID'` followed by the created station ids. -/
def station_ids (st : ScanState) : List Cell :=
  Cell.str "ID" :: st.stations.map fun s => Cell.nat s.id

/-- The `station_names` list (source lines 110 and 167). -/
def station_names (st : ScanState) : List Cell :=
  Cell.str "Name" :: st.stations.map fun s => Cell.str s.name

/-- The `lats` list (source lines 111 and 168). -/
def lats (st : ScanState) : List Cell :=
  Cell.str "Lat" :: st.stations.map fun s => Cell.rat s.lat

/-- The `lons` list (source lines 112 and 169). -/
def lons (st : ScanState) : List Cell :=
  Cell.str "Lon" :: st.stations.map fun s => Cell.rat s.lon

/-- Zip four equal-length lists into rows of four entries, dropping any
excess (the four metadata lists always have equal length). -/
def zip4 : List Cell → List Cell → List Cell → List Cell → List (List Cell)
  | a :: as, b :: bs, c :: cs, d :: ds => [a, b, c, d] :: zip4 as bs cs ds
  | _, _, _, _ => []

/-- The rows of the `station_details` DataFrame (source lines 180-185),
in the order `to_csv` writes them: because `to_csv` is called with
`header=False`, the DataFrame's column names are not written and the first
row is the row of placeholder strings. -/
def registryRows (st : ScanState) : List (List Cell) :=
  zip4 (station_ids st) (station_names st) (lats st) (lons st)

/-- Rendering of one metadata entry in the registry CSV.  String entries
are written verbatim and integer ids in base 10; float entries are rendered
by pandas' repr, approximated here by `ℚ`'s `toString` (no theorem below
depends on the float rendering). -/
def cellToString : Cell → String
  | .str s => s
  | .nat n => toString n
  | .rat q => toString q

/-- The registry file content written at source lines 187-188: each row
comma-separated and newline-terminated, no extra header row. -/
def registryCsv (st : ScanState) : String :=
  String.join ((registryRows st).map fun row =>
    String.intercalate "," (row.map cellToString) ++ "\n")

/-- The uncropped dataset opened by `process_large_climate_data`: time
coordinates as ISO `YYYY-MM-DD` strings (whose lexicographic order is
chronological order), spatial coordinate vectors, and the rendered value of
the first data variable at a (time, lat, lon) coordinate triple. -/
structure FullDataset where
  timeCoords : List String
  latCoords : List ℚ
  lonCoords : List ℚ
  vals : String → ℚ → ℚ → String

/-- Lexicographic comparison of character lists by code point. -/
def charListLe : List Char → List Char → Bool
  | [], _ => true
  | _ :: _, [] => false
  | a :: as, b :: bs =>
    if a.toNat < b.toNat then true
    else if b.toNat < a.toNat then false
    else charListLe as bs

/-- Chronological comparison of ISO `YYYY-MM-DD` date strings as the
`time=slice(start_date, end_date)` selection performs it after parsing the
strings to datetimes: on ISO-formatted strings the chronological order is
exactly the lexicographic order of the text. -/
def dateLe (a b : String) : Bool :=
  charListLe a.data b.data

/-- A bounding box as returned by `shape_file.bounds` row 0. -/
structure Bounds where
  minx : ℚ
  miny : ℚ
  maxx : ℚ
  maxy : ℚ
deriving DecidableEq, Repr

/-- Model of `shape_file.bounds` as the source reads it: geopandas
`.bounds` is a per-feature table and lines 76-79 index row `[0]` of each
column (`bounds.miny[0]`, `bounds.maxy[0]`, `bounds.minx[0]`,
`bounds.maxx[0]`), so the crop box comes from the FIRST feature's bounding
box only.  A zero box stands in for the empty feature list, which geopandas
would reject earlier. -/
def boundsOf (shape : Boundary) : Bounds :=
  match shape with
  | [] => ⟨0, 0, 0, 0⟩
  | f :: _ => ⟨f.minx, f.miny, f.maxx, f.maxy⟩

/-- The buffered crop extent of source lines 74-79: `buffer = resolution*2`
subtracted from the minima and added to the maxima on both axes. -/
def bufferedBounds (b : Bounds) (resolution : ℚ) : Bounds :=
  let buffer := resolution * 2
  ⟨b.minx - buffer, b.miny - buffer, b.maxx + buffer, b.maxy + buffer⟩

/-- The `data_array.sel(lat=slice(...), lon=slice(...), time=slice(...))`
call of source lines 84-88 on ascending coordinates: keep the coordinates
inside the inclusive window on each axis, and restrict each cell's series
to the kept time coordinates in order. -/
def sliceArray (full : FullDataset) (bb : Bounds) (startDate endDate : String) :
    DataArray :=
  let latKept := full.latCoords.filter fun x => decide (bb.miny ≤ x) && decide (x ≤ bb.maxy)
  let lonKept := full.lonCoords.filter fun x => decide (bb.minx ≤ x) && decide (x ≤ bb.maxx)
  let timeKept := full.timeCoords.filter fun t => dateLe startDate t && dateLe t endDate
  { timeLen := timeKept.length,
    latCoords := latKept,
    lonCoords := lonKept,
    values := fun i j => timeKept.map fun t =>
      full.vals t (latKept.getD i 0) (lonKept.getD j 0) }

/-- The cropped array `process_large_climate_data` builds before calling
`process_climate_data_from_array`. -/
def slicedOf (full : FullDataset) (shape : Boundary) (startDate endDate : String) :
    DataArray :=
  sliceArray full
    (bufferedBounds (boundsOf shape)
      |full.latCoords.getD 1 0 - full.latCoords.getD 0 0|)
    startDate endDate

/-- Outcome of one `process_large_climate_data` call as the user sees it:
an exception caught by the handler at source lines 98-100 and reported with
`st.error`, the "No data cells found" warning, or a completed scan. -/
inductive RunOutcome where
  | errorReported (msg : String)
  | noDataWarning
  | completed (st : ScanState)
deriving DecidableEq, Repr

/-- Whether the outcome was surfaced through the error channel. -/
def RunOutcome.isError : RunOutcome → Bool
  | .errorReported _ => true
  | _ => false

/-- `process_large_climate_data` (source lines 57-100) with overlay and
header insertion abstracted: derive the resolution from the first two
latitude samples of the FULL dataset (an IndexError with fewer than two is
caught by the function's own handler), buffer the boundary's bounding box,
slice the array spatially and temporally, and run the scan; any exception
the scan raises is caught and reported, returning 0 stations. -/
def processLargeWith (ov : Rect → Except Unit (List Rect)) (insOk : ℕ → Bool)
    (full : FullDataset) (shape : Boundary) (startDate endDate dataType : String) :
    RunOutcome × ℕ :=
  if full.latCoords.length < 2 then
    (.errorReported "IndexError: list index out of range", 0)
  else
    match processArrayWith ov insOk (slicedOf full shape startDate endDate)
        startDate dataType with
    | .raised m => (.errorReported m, 0)
    | .noCells => (.noDataWarning, 0)
    | .done st => (.completed st, st.idx - 1)

/-- `process_large_climate_data` with its real collaborators. -/
def process_large_climate_data (full : FullDataset) (shape : Boundary)
    (startDate endDate dataType : String) : RunOutcome × ℕ :=
  processLargeWith (stdOv shape) (fun _ => true) full shape startDate endDate dataType

/-! ### Characterisation of the scan loop -/

/-- The cell rectangle of index pair `c` for an explicitly given resolution. -/
def cellRectR (da : DataArray) (res : ℚ) (c : ℕ × ℕ) : Rect :=
  cellRect res (da.latCoords.getD c.1 0) (da.lonCoords.getD c.2 0)

/-- Stations created, in visiting order, when the qualifying cells are `cs`
and the first of them receives station id `k`. -/
def stationsFrom (da : DataArray) (dataType : String) : ℕ → List (ℕ × ℕ) → List Station
  | _, [] => []
  | k, c :: cs => mkStation da dataType k c :: stationsFrom da dataType (k + 1) cs

/-- Record files written, in visiting order, when the qualifying cells are
`cs` and the first of them receives station id `k`. -/
def filesFrom (da : DataArray) (insOk : ℕ → Bool) (startDate dataType : String) :
    ℕ → List (ℕ × ℕ) → List (String × String)
  | _, [] => []
  | k, c :: cs =>
    mkRecord da insOk startDate dataType k c ::
      filesFrom da insOk startDate dataType (k + 1) cs

/-- The cells of the cropped grid, in visiting order, at which the scan
creates a station, for overlay function `ov`. -/
def createdCellsW (ov : Rect → Except Unit (List Rect)) (da : DataArray) :
    List (ℕ × ℕ) :=
  (gridCells da).filter fun c => cellQual ov (cellRectR da (resolutionOf da) c)

/-- The created cells of the real scan against boundary `shape`. -/
def createdCells (shape : Boundary) (da : DataArray) : List (ℕ × ℕ) :=
  createdCellsW (stdOv shape) da

/-! ### Concrete fixtures used by witnesses and counterexamples -/

/-- A 2-row, 1-column grid (resolution 1) with Scenario D's series at cell
(0, 0): cell centres (lat 0, lon 0) and (lat 1, lon 0). -/
def wDa : DataArray :=
  { timeLen := 3,
    latCoords := [0, 1],
    lonCoords := [0],
    values := fun i j =>
      if i = 0 && j = 0 then ["10.2", "11.4", "9.8"] else ["0", "0", "0"] }

/-- Boundary covering exactly the cell rectangle of cell (0, 0) of `wDa`;
it touches cell (1, 0) only along the shared edge at latitude 1/2. -/
def wShapeUnit : Boundary := [⟨-1/2, -1/2, 1/2, 1/2⟩]

/-- Boundary covering both cell rectangles of `wDa`. -/
def wShapeBoth : Boundary := [⟨-1/2, -1/2, 1/2, 3/2⟩]

/-- Boundary far away from the grid of `wDa`: zero spatial overlap. -/
def wShapeFar : Boundary := [⟨100, 100, 110, 110⟩]

/-- A two-feature boundary whose two disjoint features overlap the unit
cell rectangle centred at the origin with areas 1/4 and 1/2. -/
def wShapeTwo : Boundary := [⟨-1/2, -1/2, -1/4, 1/2⟩, ⟨0, -1/2, 1/2, 1/2⟩]

/-- Full dataset whose time coverage (January 1990) lies entirely before
the requested windows used in the C5 scenario. -/
def wFullEmptyTime : FullDataset :=
  { timeCoords := ["1990-01-01", "1990-01-02"],
    latCoords := [0, 1, 2],
    lonCoords := [0, 1],
    vals := fun _ _ _ => "0" }

/-- Full dataset with two equal adjacent latitude samples: the derived
resolution is 0. -/
def wFullFlatLat : FullDataset :=
  { timeCoords := ["1990-01-01"],
    latCoords := [5, 5],
    lonCoords := [3],
    vals := fun _ _ _ => "0" }

/-- A large boundary containing the coordinates of `wFullFlatLat`. -/
def wShapeBig : Boundary := [⟨0, 0, 10, 10⟩]

/-- Overlay function that raises a geometry failure exactly at the cell
rectangle of cell (0, 0) of `wDa` and otherwise behaves like the real
overlay against `wShapeBoth`. -/
def wOvFail : Rect → Except Unit (List Rect) :=
  fun g => if g = cellRect 1 0 0 then .error () else stdOv wShapeBoth g

theorem processCell_eq (ov : Rect → Except Unit (List Rect)) (insOk : ℕ → Bool)
    (da : DataArray) (res : ℚ) (startDate dataType : String)
    (st : ScanState) (c : ℕ × ℕ) :
    processCell ov insOk da res startDate dataType st c =
      if cellQual ov (cellRectR da res c) then
        { idx := st.idx + 1,
          stations := st.stations ++ [mkStation da dataType st.idx c],
          files := st.files ++ [mkRecord da insOk startDate dataType st.idx c] }
      else st := by
  rcases hov : ov (cellRect res (da.latCoords.getD c.1 0) (da.lonCoords.getD c.2 0))
    with e | pieces
  · simp only [processCell, cellQual, cellRectR, hov]
    simp
  · by_cases h1 : 0 < pieces.length <;>
      by_cases h2 : 0 < fracOfPieces pieces
        (cellRect res (da.latCoords.getD c.1 0) (da.lonCoords.getD c.2 0)) <;>
      · simp only [processCell, cellQual, cellRectR, hov]
        simp [h1, h2]

theorem stationsFrom_length (da : DataArray) (dataType : String) :
    ∀ (k : ℕ) (cs : List (ℕ × ℕ)), (stationsFrom da dataType k cs).length = cs.length := by
  intro k cs
  induction cs generalizing k with
  | nil => simp [stationsFrom]
  | cons c cs ih => simp [stationsFrom, ih]

theorem filesFrom_length (da : DataArray) (insOk : ℕ → Bool) (startDate dataType : String) :
    ∀ (k : ℕ) (cs : List (ℕ × ℕ)),
      (filesFrom da insOk startDate dataType k cs).length = cs.length := by
  intro k cs
  induction cs generalizing k with
  | nil => simp [filesFrom]
  | cons c cs ih => simp [filesFrom, ih]

theorem stationsFrom_map_id (da : DataArray) (dataType : String) :
    ∀ (k : ℕ) (cs : List (ℕ × ℕ)),
      (stationsFrom da dataType k cs).map Station.id = List.range' k cs.length := by
  intro k cs
  induction cs generalizing k with
  | nil => simp [stationsFrom]
  | cons c cs ih => simp [stationsFrom, mkStation, List.range', ih]

/-- Master characterisation of the scan loop: folding the per-cell body over
any cell list appends exactly the stations and record files of the
qualifying cells, numbered consecutively from the incoming `idx`. -/
theorem foldl_processCell (ov : Rect → Except Unit (List Rect)) (insOk : ℕ → Bool)
    (da : DataArray) (res : ℚ) (startDate dataType : String) :
    ∀ (cs : List (ℕ × ℕ)) (st : ScanState),
      cs.foldl (processCell ov insOk da res startDate dataType) st =
        { idx := st.idx +
            (cs.filter fun c => cellQual ov (cellRectR da res c)).length,
          stations := st.stations ++ stationsFrom da dataType st.idx
            (cs.filter fun c => cellQual ov (cellRectR da res c)),
          files := st.files ++ filesFrom da insOk startDate dataType st.idx
            (cs.filter fun c => cellQual ov (cellRectR da res c)) } := by
  intro cs
  induction cs with
  | nil => intro st; simp [stationsFrom, filesFrom]
  | cons c cs ih =>
    intro st
    rw [List.foldl_cons, processCell_eq]
    by_cases h : cellQual ov (cellRectR da res c)
    · rw [if_pos h, ih]
      simp [List.filter_cons, h, stationsFrom, filesFrom, List.append_assoc,
        ScanState.mk.injEq]
      omega
    · rw [if_neg h, ih]
      simp [List.filter_cons, h]

/-- Inversion of a completed scan: the final state is exactly the stations
and files of the qualifying cells numbered from 1, and completion implies
at least two latitude samples, a nonempty longitude axis and a nonempty
time axis. -/
theorem processArrayWith_done {ov : Rect → Except Unit (List Rect)}
    {insOk : ℕ → Bool} {da : DataArray} {startDate dataType : String}
    {st : ScanState}
    (h : processArrayWith ov insOk da startDate dataType = .done st) :
    st = { idx := 1 + (createdCellsW ov da).length,
           stations := stationsFrom da dataType 1 (createdCellsW ov da),
           files := filesFrom da insOk startDate dataType 1 (createdCellsW ov da) } ∧
      2 ≤ da.latCoords.length ∧ da.lonCoords.length ≠ 0 ∧ da.timeLen ≠ 0 := by
  unfold processArrayWith at h
  split_ifs at h with h1 h2 h3
  rw [foldl_processCell] at h
  injection h with h
  subst h
  refine ⟨rfl, by omega, ?_, h3⟩
  intro hlon
  exact h2 (by simp [hlon])

/-! ### Geometry lemmas -/

theorem Rect.area_nonneg (r : Rect) : 0 ≤ r.area :=
  mul_nonneg (le_max_right _ _) (le_max_right _ _)

theorem Rect.area_pos_iff (r : Rect) :
    0 < r.area ↔ r.minx < r.maxx ∧ r.miny < r.maxy := by
  constructor
  · intro h
    constructor
    · by_contra hx
      push_neg at hx
      have hz : max (r.maxx - r.minx) 0 = 0 := max_eq_right (by linarith)
      rw [Rect.area, hz, zero_mul] at h
      exact lt_irrefl 0 h
    · by_contra hy
      push_neg at hy
      have hz : max (r.maxy - r.miny) 0 = 0 := max_eq_right (by linarith)
      rw [Rect.area, hz, mul_zero] at h
      exact lt_irrefl 0 h
  · rintro ⟨hx, hy⟩
    have hx' : max (r.maxx - r.minx) 0 = r.maxx - r.minx := max_eq_left (by linarith)
    have hy' : max (r.maxy - r.miny) 0 = r.maxy - r.miny := max_eq_left (by linarith)
    rw [Rect.area, hx', hy']
    exact mul_pos (by linarith) (by linarith)

theorem Rect.proper_iff (r : Rect) :
    r.proper = true ↔ r.minx < r.maxx ∧ r.miny < r.maxy := by
  simp [Rect.proper]

theorem Rect.area_pos_iff_proper (r : Rect) : 0 < r.area ↔ r.proper = true := by
  rw [Rect.area_pos_iff, Rect.proper_iff]

/-- A proper intersection forces the right-hand rectangle to be proper. -/
theorem Rect.proper_of_inter_proper {f g : Rect} (h : (f.inter g).proper = true) :
    g.proper = true := by
  rw [Rect.proper_iff] at h ⊢
  rcases h with ⟨hx, hy⟩
  simp only [Rect.inter] at hx hy
  constructor
  · calc g.minx ≤ max f.minx g.minx := le_max_right _ _
      _ < min f.maxx g.maxx := hx
      _ ≤ g.maxx := min_le_right _ _
  · calc g.miny ≤ max f.miny g.miny := le_max_right _ _
      _ < min f.maxy g.maxy := hy
      _ ≤ g.maxy := min_le_right _ _

theorem mem_overlayPieces_iff {shape : Boundary} {g p : Rect} :
    p ∈ overlayPieces shape g ↔ ∃ f ∈ shape, f.inter g = p ∧ p.proper = true := by
  simp only [overlayPieces, List.mem_filter, List.mem_map]
  constructor
  · rintro ⟨⟨f, hf, rfl⟩, hp⟩
    exact ⟨f, hf, rfl, hp⟩
  · rintro ⟨f, hf, rfl, hp⟩
    exact ⟨⟨f, hf, rfl⟩, hp⟩

/-- The sum of the per-feature intersection areas is strictly positive
exactly when some feature's intersection with the rectangle has strictly
positive area. -/
theorem interAreaSum_pos_iff (shape : Boundary) (g : Rect) :
    0 < interAreaSum shape g ↔ ∃ f ∈ shape, 0 < (f.inter g).area := by
  constructor
  · intro h
    by_contra hc
    push_neg at hc
    have hz : interAreaSum shape g = 0 := by
      apply List.sum_eq_zero
      intro x hx
      rcases List.mem_map.mp hx with ⟨f, hf, rfl⟩
      exact le_antisymm (hc f hf) (Rect.area_nonneg _)
    rw [hz] at h
    exact lt_irrefl 0 h
  · rintro ⟨f, hf, hpos⟩
    have hmem : (f.inter g).area ∈ shape.map fun f => (f.inter g).area :=
      List.mem_map.mpr ⟨f, hf, rfl⟩
    have hle : (f.inter g).area ≤ interAreaSum shape g := by
      apply List.single_le_sum _ _ hmem
      intro x hx
      rcases List.mem_map.mp hx with ⟨f', _, rfl⟩
      exact Rect.area_nonneg _
    exact lt_of_lt_of_le hpos hle

/-- The real scan's per-cell qualification test succeeds exactly when the
cell rectangle's intersection with the boundary has strictly positive
area. -/
theorem cellQual_std_iff (shape : Boundary) (g : Rect) :
    cellQual (stdOv shape) g = true ↔ 0 < interAreaSum shape g := by
  rw [interAreaSum_pos_iff]
  unfold cellQual stdOv
  simp only [Bool.and_eq_true, decide_eq_true_eq]
  constructor
  · rintro ⟨hlen, -⟩
    rcases hp : overlayPieces shape g with _ | ⟨p, rest⟩
    · rw [hp] at hlen; simp at hlen
    · have hmem : p ∈ overlayPieces shape g := by rw [hp]; exact List.mem_cons_self _ _
      rcases mem_overlayPieces_iff.mp hmem with ⟨f, hf, hfp, hproper⟩
      exact ⟨f, hf, by rw [hfp]; exact (Rect.area_pos_iff_proper p).mpr hproper⟩
  · rintro ⟨f, hf, hpos⟩
    have hproper : (f.inter g).proper = true := (Rect.area_pos_iff_proper _).mp hpos
    have hmem : f.inter g ∈ overlayPieces shape g :=
      mem_overlayPieces_iff.mpr ⟨f, hf, rfl, hproper⟩
    rcases hp : overlayPieces shape g with _ | ⟨p, rest⟩
    · rw [hp] at hmem; simp at hmem
    · have hpmem : p ∈ overlayPieces shape g := by rw [hp]; exact List.mem_cons_self _ _
      rcases mem_overlayPieces_iff.mp hpmem with ⟨f', _, hfp', hproper'⟩
      have hparea : 0 < p.area := (Rect.area_pos_iff_proper p).mpr hproper'
      have hg : 0 < g.area :=
        (Rect.area_pos_iff_proper g).mpr
          (Rect.proper_of_inter_proper (hfp' ▸ hproper'))
      refine ⟨by simp [hp], ?_⟩
      unfold fracOfPieces
      simp only [List.headD_cons]
      exact div_pos hparea hg

/-- The planar area of the overlap of two rectangles is positive exactly
when the rational intersection bookkeeping gives positive area. -/
theorem volume_inter_pos_iff (f g : Rect) :
    0 < MeasureTheory.volume (Rect.toSet g ∩ Rect.toSet f) ↔
      0 < (f.inter g).area := by
  rw [Rect.toSet, Rect.toSet, Set.prod_inter_prod, Set.Icc_inter_Icc,
    Set.Icc_inter_Icc, MeasureTheory.Measure.volume_eq_prod,
    MeasureTheory.Measure.prod_prod, Real.volume_Icc, Real.volume_Icc,
    CanonicallyOrderedCommSemiring.mul_pos, ENNReal.ofReal_pos,
    ENNReal.ofReal_pos, Rect.area_pos_iff]
  simp only [Rect.inter]
  constructor
  · rintro ⟨hx, hy⟩
    constructor
    · rw [sub_pos] at hx
      rw [max_comm f.minx g.minx, min_comm f.maxx g.maxx]
      exact_mod_cast (by push_cast; exact hx :
        ((max g.minx f.minx : ℚ) : ℝ) < ((min g.maxx f.maxx : ℚ) : ℝ))
    · rw [sub_pos] at hy
      rw [max_comm f.miny g.miny, min_comm f.maxy g.maxy]
      exact_mod_cast (by push_cast; exact hy :
        ((max g.miny f.miny : ℚ) : ℝ) < ((min g.maxy f.maxy : ℚ) : ℝ))
  · rintro ⟨hx, hy⟩
    rw [max_comm f.minx g.minx, min_comm f.maxx g.maxx] at hx
    rw [max_comm f.miny g.miny, min_comm f.maxy g.maxy] at hy
    constructor
    · rw [sub_pos]
      have : ((max g.minx f.minx : ℚ) : ℝ) < ((min g.maxx f.maxx : ℚ) : ℝ) :=
        by exact_mod_cast hx
      push_cast at this
      exact this
    · rw [sub_pos]
      have : ((max g.miny f.miny : ℚ) : ℝ) < ((min g.maxy f.maxy : ℚ) : ℝ) :=
        by exact_mod_cast hy
      push_cast at this
      exact this

/-- The planar area of `rect ∩ boundary` is positive exactly when the sum
of the per-feature intersection areas is: `interAreaSum` captures the
specification's "intersection area with the boundary is strictly greater
than zero" faithfully. -/
theorem volume_inter_boundary_pos_iff (shape : Boundary) (g : Rect) :
    0 < MeasureTheory.volume (Rect.toSet g ∩ boundarySet shape) ↔
      0 < interAreaSum shape g := by
  induction shape with
  | nil =>
    have hempty : boundarySet [] = ∅ := by
      ext p; simp [boundarySet]
    simp [hempty, interAreaSum]
  | cons f rest ih =>
    have hset : boundarySet (f :: rest) = Rect.toSet f ∪ boundarySet rest := by
      ext p
      simp only [boundarySet, Set.mem_setOf_eq, Set.mem_union,
        List.exists_mem_cons_iff]
    have hsum : interAreaSum (f :: rest) g =
        (f.inter g).area + interAreaSum rest g := by
      simp [interAreaSum]
    rw [hset, Set.inter_union_distrib_left, hsum]
    have hpos_union : 0 < MeasureTheory.volume
        ((Rect.toSet g ∩ Rect.toSet f) ∪ (Rect.toSet g ∩ boundarySet rest)) ↔
        0 < MeasureTheory.volume (Rect.toSet g ∩ Rect.toSet f) ∨
        0 < MeasureTheory.volume (Rect.toSet g ∩ boundarySet rest) := by
      rw [pos_iff_ne_zero, pos_iff_ne_zero, pos_iff_ne_zero,
        ← not_and_or, not_iff_not, MeasureTheory.measure_union_null_iff]
    rw [hpos_union, volume_inter_pos_iff, ih]
    have h1 := Rect.area_nonneg (f.inter g)
    have h2 : 0 ≤ interAreaSum rest g := by
      apply List.sum_nonneg
      intro x hx
      rcases List.mem_map.mp hx with ⟨f', -, rfl⟩
      exact Rect.area_nonneg _
    constructor
    · rintro (h | h) <;> linarith
    · intro h
      by_contra hc
      push_neg at hc
      rcases hc with ⟨hca, hcb⟩
      have : (f.inter g).area = 0 := le_antisymm (by linarith) h1
      have : interAreaSum rest g = 0 := le_antisymm (by linarith) h2
      linarith

/-! ### Claim C1 -/

/-- C1: in a completed scan, a station is created for a cell of the cropped
grid if and only if the intersection area of the cell's
resolution-by-resolution rectangle with the boundary geometry is strictly
positive — `interAreaSum`, whose positivity coincides with positivity of
the planar (Lebesgue) area of `rectangle ∩ boundary`, second conjunct — so
a tangent, zero-area touch creates no station, and the number of stations
created equals exactly the count of such cells. -/
theorem C1_station_iff_positive_overlap (da : DataArray) (shape : Boundary)
    (startDate endDate dataType : String) (st : ScanState)
    (h : process_climate_data_from_array da shape startDate endDate dataType =
      .done st) :
    (∀ c ∈ gridCells da,
      (c ∈ createdCells shape da ↔
        0 < interAreaSum shape (cellRectR da (resolutionOf da) c))) ∧
    (∀ g : Rect, 0 < interAreaSum shape g ↔
      0 < MeasureTheory.volume (Rect.toSet g ∩ boundarySet shape)) ∧
    st.stations.length = (createdCells shape da).length := by
  rcases processArrayWith_done h with ⟨hst, -, -, -⟩
  refine ⟨?_, ?_, ?_⟩
  · intro c hc
    unfold createdCells createdCellsW
    rw [List.mem_filter]
    constructor
    · rintro ⟨-, hq⟩
      exact (cellQual_std_iff shape _).mp hq
    · intro hpos
      exact ⟨hc, (cellQual_std_iff shape _).mpr hpos⟩
  · intro g
    exact (volume_inter_boundary_pos_iff shape g).symm
  · rw [hst]
    exact stationsFrom_length da dataType 1 (createdCells shape da)

/-- Witness for C1 at a concrete run: the boundary covers cell (0, 0) of
the 2-cell grid and touches cell (1, 0) only along an edge, so exactly one
station is created. -/
theorem C1_witness :
    process_climate_data_from_array wDa wShapeUnit "1990-01-01" "1995-12-31"
        "rainfall" =
      .done ⟨2, [⟨1, "RAINFALL1", 0, 0, ["10.2", "11.4", "9.8"]⟩],
             [("RAINFALL1.csv", "19900101\n10.2\n11.4\n9.8\n")]⟩ ∧
    ((∀ c ∈ gridCells wDa,
      (c ∈ createdCells wShapeUnit wDa ↔
        0 < interAreaSum wShapeUnit (cellRectR wDa (resolutionOf wDa) c))) ∧
    (∀ g : Rect, 0 < interAreaSum wShapeUnit g ↔
      0 < MeasureTheory.volume (Rect.toSet g ∩ boundarySet wShapeUnit)) ∧
    (ScanState.mk 2 [⟨1, "RAINFALL1", 0, 0, ["10.2", "11.4", "9.8"]⟩]
        [("RAINFALL1.csv", "19900101\n10.2\n11.4\n9.8\n")]).stations.length =
      (createdCells wShapeUnit wDa).length) :=
  ⟨by decide,
   C1_station_iff_positive_overlap wDa wShapeUnit "1990-01-01" "1995-12-31"
     "rainfall" _ (by decide)⟩

/-! ### Claim C2 -/

/-- C2: in a completed scan the station ids form the contiguous sequence
1..N with no gaps, duplicates or reuse, and the stations are exactly those
of the qualifying cells taken in row-major visiting order (`createdCells`
is a filter of the row-major `gridCells` list), numbered consecutively from
1 even across skipped cells. -/
theorem C2_station_ids_contiguous (da : DataArray) (shape : Boundary)
    (startDate endDate dataType : String) (st : ScanState)
    (h : process_climate_data_from_array da shape startDate endDate dataType =
      .done st) :
    st.stations.map Station.id = List.range' 1 st.stations.length ∧
    st.stations = stationsFrom da dataType 1 (createdCells shape da) ∧
    st.idx - 1 = st.stations.length := by
  rcases processArrayWith_done h with ⟨hst, -, -, -⟩
  rw [hst]
  refine ⟨?_, rfl, ?_⟩
  · rw [stationsFrom_map_id, stationsFrom_length]
  · simp [stationsFrom_length]

/-- Witness for C2: a run creating two stations with ids [1, 2]. -/
theorem C2_witness :
    process_climate_data_from_array wDa wShapeBoth "1990-01-01" "1995-12-31"
        "rainfall" =
      .done ⟨3,
        [⟨1, "RAINFALL1", 0, 0, ["10.2", "11.4", "9.8"]⟩,
         ⟨2, "RAINFALL2", 1, 0, ["0", "0", "0"]⟩],
        [("RAINFALL1.csv", "19900101\n10.2\n11.4\n9.8\n"),
         ("RAINFALL2.csv", "19900101\n0\n0\n0\n")]⟩ ∧
    ((ScanState.mk 3
        [⟨1, "RAINFALL1", 0, 0, ["10.2", "11.4", "9.8"]⟩,
         ⟨2, "RAINFALL2", 1, 0, ["0", "0", "0"]⟩]
        [("RAINFALL1.csv", "19900101\n10.2\n11.4\n9.8\n"),
         ("RAINFALL2.csv", "19900101\n0\n0\n0\n")]).stations.map Station.id =
      List.range' 1 2 ∧
     (ScanState.mk 3
        [⟨1, "RAINFALL1", 0, 0, ["10.2", "11.4", "9.8"]⟩,
         ⟨2, "RAINFALL2", 1, 0, ["0", "0", "0"]⟩]
        [("RAINFALL1.csv", "19900101\n10.2\n11.4\n9.8\n"),
         ("RAINFALL2.csv", "19900101\n0\n0\n0\n")]).stations =
      stationsFrom wDa "rainfall" 1 (createdCells wShapeBoth wDa) ∧
     3 - 1 = 2) :=
  ⟨by decide,
   C2_station_ids_contiguous wDa wShapeBoth "1990-01-01" "1995-12-31"
     "rainfall" _ (by decide)⟩

/-! ### Claim C3 -/

theorem mem_filesFrom {da : DataArray} {insOk : ℕ → Bool}
    {startDate dataType : String} :
    ∀ {k : ℕ} {cs : List (ℕ × ℕ)} {f : String × String},
      f ∈ filesFrom da insOk startDate dataType k cs →
      ∃ k' c, c ∈ cs ∧ f = mkRecord da insOk startDate dataType k' c := by
  intro k cs
  induction cs generalizing k with
  | nil => intro f hf; simp [filesFrom] at hf
  | cons c cs ih =>
    intro f hf
    rcases List.mem_cons.mp hf with hf | hf
    · exact ⟨k, c, List.mem_cons_self _ _, hf⟩
    · rcases ih hf with ⟨k', c', hc', rfl⟩
      exact ⟨k', c', List.mem_cons_of_mem _ hc', rfl⟩

/-- C3: in a completed scan the record files are exactly those of the
qualifying cells, and every record's content is the compact start date
(dashes removed) on the first line followed by exactly the cell's source
series, one value per line in chronological order, with no header and no
index column. -/
theorem C3_record_file_format (da : DataArray) (shape : Boundary)
    (startDate endDate dataType : String) (st : ScanState)
    (h : process_climate_data_from_array da shape startDate endDate dataType =
      .done st) :
    st.files = filesFrom da (fun _ => true) startDate dataType 1
      (createdCells shape da) ∧
    ∀ f ∈ st.files, ∃ c ∈ createdCells shape da,
      f.2 = removeDashes startDate ++ "\n" ++ seriesCsv (da.values c.1 c.2) := by
  rcases processArrayWith_done h with ⟨hst, -, -, -⟩
  rw [hst]
  refine ⟨rfl, ?_⟩
  intro f hf
  rcases mem_filesFrom hf with ⟨k', c, hc, rfl⟩
  exact ⟨c, hc, rfl⟩

/-- Witness for C3, realising Scenario D: the single qualifying cell's
series [10.2, 11.4, 9.8] with start date 1990-01-01 yields record content
exactly "19900101\n10.2\n11.4\n9.8\n". -/
theorem C3_witness :
    process_climate_data_from_array wDa wShapeUnit "1990-01-01" "1995-12-31"
        "rainfall" =
      .done ⟨2, [⟨1, "RAINFALL1", 0, 0, ["10.2", "11.4", "9.8"]⟩],
             [("RAINFALL1.csv", "19900101\n10.2\n11.4\n9.8\n")]⟩ ∧
    ((ScanState.mk 2 [⟨1, "RAINFALL1", 0, 0, ["10.2", "11.4", "9.8"]⟩]
        [("RAINFALL1.csv", "19900101\n10.2\n11.4\n9.8\n")]).files =
      filesFrom wDa (fun _ => true) "1990-01-01" "rainfall" 1
        (createdCells wShapeUnit wDa) ∧
     ∀ f ∈ (ScanState.mk 2 [⟨1, "RAINFALL1", 0, 0, ["10.2", "11.4", "9.8"]⟩]
        [("RAINFALL1.csv", "19900101\n10.2\n11.4\n9.8\n")]).files,
       ∃ c ∈ createdCells wShapeUnit wDa,
         f.2 = removeDashes "1990-01-01" ++ "\n" ++
           seriesCsv (wDa.values c.1 c.2)) ∧
    "19900101" ++ "\n" ++ seriesCsv ["10.2", "11.4", "9.8"] =
      "19900101\n10.2\n11.4\n9.8\n" :=
  ⟨by decide,
   C3_record_file_format wDa wShapeUnit "1990-01-01" "1995-12-31" "rainfall" _
     (by decide),
   by decide⟩

/-! ### Claim C4 -/

theorem zip4_maps (f1 f2 f3 f4 : Station → Cell) (l : List Station) :
    zip4 (l.map f1) (l.map f2) (l.map f3) (l.map f4) =
      l.map fun s => [f1 s, f2 s, f3 s, f4 s] := by
  induction l with
  | nil => rfl
  | cons s l ih => simp [zip4, ih]

/-- The registry rows are the row of placeholder strings followed by one
row per station in creation order. -/
theorem registryRows_eq (st : ScanState) :
    registryRows st =
      [Cell.str "ID", Cell.str "Name", Cell.str "Lat", Cell.str "Lon"] ::
        st.stations.map fun s =>
          [Cell.nat s.id, Cell.str s.name, Cell.rat s.lat, Cell.rat s.lon] := by
  unfold registryRows station_ids station_names lats lons
  rw [zip4]
  rw [zip4_maps]

/-- C4 (amended): after every completed scan the registry table has the row
`ID,Name,Lat,Lon` first — the placeholder strings, because `to_csv` is
called with `header=False`, not the claimed `ID,station_names,Lat,Lon` —
followed by exactly one row per created station in creation order; with
zero stations the file holds that single row.  (When the cropped grid is
empty the source returns before writing any registry file, so no registry
exists at all; that path does not reach a completed scan.) -/
theorem C4_registry_layout (da : DataArray) (shape : Boundary)
    (startDate endDate dataType : String) (st : ScanState)
    (h : process_climate_data_from_array da shape startDate endDate dataType =
      .done st) :
    registryRows st =
      [Cell.str "ID", Cell.str "Name", Cell.str "Lat", Cell.str "Lon"] ::
        st.stations.map (fun s =>
          [Cell.nat s.id, Cell.str s.name, Cell.rat s.lat, Cell.rat s.lon]) ∧
    (st.stations = [] → registryCsv st = "ID,Name,Lat,Lon\n") := by
  refine ⟨registryRows_eq st, ?_⟩
  intro hnil
  rw [registryCsv, registryRows_eq, hnil]
  decide

/-- Witness for C4's amended statement at a concrete completed run with
zero stations (grid nonempty, boundary disjoint). -/
theorem C4_witness :
    process_climate_data_from_array wDa wShapeFar "1990-01-01" "1995-12-31"
        "rainfall" = .done ⟨1, [], []⟩ ∧
    (registryRows ⟨1, [], []⟩ =
      [[Cell.str "ID", Cell.str "Name", Cell.str "Lat", Cell.str "Lon"]] ∧
     registryCsv ⟨1, [], []⟩ = "ID,Name,Lat,Lon\n") :=
  ⟨by decide,
   by
    have h := C4_registry_layout wDa wShapeFar "1990-01-01" "1995-12-31"
      "rainfall" ⟨1, [], []⟩ (by decide)
    exact ⟨by rw [h.1]; rfl, h.2 rfl⟩⟩

/-- Counterexample to C4 as stated: the first serialized registry row of a
completed zero-station run is `ID,Name,Lat,Lon`, not the claimed
`ID,station_names,Lat,Lon`. -/
theorem C4_counterexample :
    process_climate_data_from_array wDa wShapeFar "1990-01-01" "1995-12-31"
        "rainfall" = .done ⟨1, [], []⟩ ∧
    registryCsv ⟨1, [], []⟩ = "ID,Name,Lat,Lon\n" ∧
    "ID,Name,Lat,Lon\n" ≠ "ID,station_names,Lat,Lon\n" :=
  ⟨by decide, by decide, by decide⟩

/-! ### Claim C6 -/

/-- If the overlay keeps no piece, every per-feature intersection area is
zero. -/
theorem interAreaSum_eq_zero_of_overlay_nil {shape : Boundary} {g : Rect}
    (h : overlayPieces shape g = []) : interAreaSum shape g = 0 := by
  apply List.sum_eq_zero
  intro x hx
  rcases List.mem_map.mp hx with ⟨f, hf, rfl⟩
  by_contra hne
  have hpos : 0 < (f.inter g).area :=
    lt_of_le_of_ne (Rect.area_nonneg _) (Ne.symm hne)
  have hmem : f.inter g ∈ overlayPieces shape g :=
    mem_overlayPieces_iff.mpr ⟨f, hf, rfl, (Rect.area_pos_iff_proper _).mp hpos⟩
  rw [h] at hmem
  simp at hmem

/-- C6 (amended): the scan's fraction is the area of the FIRST overlay
piece divided by the rectangle area (`intersect_poly.area[0]`), not the
total intersection area.  For a single-feature boundary the two coincide,
and for any boundary the two fractions agree on strict positivity, so
qualification is unaffected. -/
theorem C6_first_piece_fraction (f g : Rect) (shape : Boundary) (g' : Rect) :
    cellFraction [f] g = specFraction [f] g ∧
    (0 < cellFraction shape g' ↔ 0 < specFraction shape g') := by
  constructor
  · have hov : overlayPieces [f] g =
        if (f.inter g).proper then [f.inter g] else [] := by
      simp [overlayPieces, List.filter_cons]
    unfold cellFraction specFraction interAreaSum fracOfPieces
    rw [hov]
    by_cases h : (f.inter g).proper
    · simp [h]
    · have hz : (f.inter g).area = 0 := by
        rcases lt_or_eq_of_le (Rect.area_nonneg (f.inter g)) with hlt | heq
        · exact absurd ((Rect.area_pos_iff_proper _).mp hlt) (by simpa using h)
        · exact heq.symm
      have hda : (Rect.mk 0 0 0 0).area = 0 := by decide
      simp [h, hz, hda]
  · unfold cellFraction specFraction fracOfPieces
    rcases hp : overlayPieces shape g' with _ | ⟨p, rest⟩
    · rw [interAreaSum_eq_zero_of_overlay_nil hp]
      simp [Rect.area]
    · have hpmem : p ∈ overlayPieces shape g' := by
        rw [hp]; exact List.mem_cons_self _ _
      rcases mem_overlayPieces_iff.mp hpmem with ⟨fp, hfp, hfpe, hproper⟩
      have hparea : 0 < p.area := (Rect.area_pos_iff_proper p).mpr hproper
      have hg : 0 < g'.area :=
        (Rect.area_pos_iff_proper g').mpr
          (Rect.proper_of_inter_proper (hfpe ▸ hproper))
      have hsum : 0 < interAreaSum shape g' :=
        (interAreaSum_pos_iff shape g').mpr
          ⟨fp, hfp, by rw [hfpe]; exact hparea⟩
      simp only [List.headD_cons]
      constructor
      · intro; exact div_pos hsum hg
      · intro; exact div_pos hparea hg

/-- Counterexample to C6 as stated: against the two-feature boundary
`wShapeTwo` the scan's fraction for the unit cell rectangle is 1/4 (the
first piece only), while the total-intersection-area fraction is 3/4. -/
theorem C6_counterexample :
    cellFraction wShapeTwo (cellRect 1 0 0) = 1/4 ∧
    specFraction wShapeTwo (cellRect 1 0 0) = 3/4 ∧
    (1/4 : ℚ) ≠ 3/4 :=
  ⟨by decide, by decide, by decide⟩

/-! ### Claim C7 -/

/-- C7: for a positive resolution, the crop extent used to subset the array
is the boundary bounding box expanded by exactly 2 × resolution on each of
the four sides, and the spatial slice keeps exactly the coordinates inside
that expanded window. -/
theorem C7_buffered_crop_extent (b : Bounds) (r : ℚ) (h : 0 < r)
    (full : FullDataset) (startDate endDate : String) :
    (bufferedBounds b r).minx = b.minx - 2 * r ∧
    (bufferedBounds b r).miny = b.miny - 2 * r ∧
    (bufferedBounds b r).maxx = b.maxx + 2 * r ∧
    (bufferedBounds b r).maxy = b.maxy + 2 * r ∧
    (sliceArray full (bufferedBounds b r) startDate endDate).latCoords =
      full.latCoords.filter
        (fun x => decide (b.miny - 2 * r ≤ x) && decide (x ≤ b.maxy + 2 * r)) ∧
    (sliceArray full (bufferedBounds b r) startDate endDate).lonCoords =
      full.lonCoords.filter
        (fun x => decide (b.minx - 2 * r ≤ x) && decide (x ≤ b.maxx + 2 * r)) := by
  have hb : r * 2 = 2 * r := mul_comm r 2
  refine ⟨?_, ?_, ?_, ?_, ?_, ?_⟩ <;>
    simp [bufferedBounds, sliceArray, hb]

/-- Witness for C7 at resolution 1 and bounding box (0, 0, 1, 1). -/
theorem C7_witness :
    (0 : ℚ) < 1 ∧
    (bufferedBounds ⟨0, 0, 1, 1⟩ 1).miny = 0 - 2 * 1 ∧
    (sliceArray wFullEmptyTime (bufferedBounds ⟨0, 0, 1, 1⟩ 1) "1990-01-01"
        "1995-12-31").latCoords =
      wFullEmptyTime.latCoords.filter
        (fun x => decide ((0:ℚ) - 2 * 1 ≤ x) && decide (x ≤ 1 + 2 * 1)) :=
  ⟨by decide,
   (C7_buffered_crop_extent ⟨0, 0, 1, 1⟩ 1 (by decide) wFullEmptyTime
     "1990-01-01" "1995-12-31").2.1,
   (C7_buffered_crop_extent ⟨0, 0, 1, 1⟩ 1 (by decide) wFullEmptyTime
     "1990-01-01" "1995-12-31").2.2.2.2.1⟩

/-! ### Claim C5 -/

theorem charListLe_trans : ∀ (a b c : List Char),
    charListLe a b = true → charListLe b c = true → charListLe a c = true := by
  intro a
  induction a with
  | nil => intro b c _ _; simp [charListLe]
  | cons x xs ih =>
    intro b c hab hbc
    cases b with
    | nil => simp [charListLe] at hab
    | cons y ys =>
      cases c with
      | nil => simp [charListLe] at hbc
      | cons z zs =>
        simp only [charListLe] at hab hbc ⊢
        split_ifs at hab hbc ⊢ <;>
          first
            | rfl
            | omega
            | exact ih ys zs hab hbc

/-- An inverted date window keeps no time coordinate. -/
theorem dateLe_window_empty {startDate endDate t : String}
    (h : dateLe startDate endDate = false) :
    (dateLe startDate t && dateLe t endDate) = false := by
  cases h1 : dateLe startDate t
  · simp
  · cases h2 : dateLe t endDate
    · simp
    · exfalso
      have ht : charListLe startDate.data endDate.data = true :=
        charListLe_trans _ _ _ h1 h2
      rw [dateLe, ht] at h
      simp at h

/-- C5 (amended): the outcome of a run over an empty window depends on
WHICH axis is empty.  Only a cropped grid with at least two latitude rows
and zero longitude columns yields the non-fatal "no data cells" warning
with zero stations.  An empty temporal window over a nonempty spatial grid
(including start_date > end_date and windows outside the dataset's
coverage) raises an IndexError inside the scan that the per-dataset handler
catches and reports as an error (still zero stations); a cropped latitude
axis with fewer than two samples likewise raises before the cell count is
checked.  No exception propagates past the per-dataset handler, and an
inverted date window always produces an empty temporal crop. -/
theorem C5_empty_window_behaviour (full : FullDataset) (shape : Boundary)
    (startDate endDate dataType : String) :
    (2 ≤ full.latCoords.length →
      2 ≤ (slicedOf full shape startDate endDate).latCoords.length →
      (slicedOf full shape startDate endDate).lonCoords.length = 0 →
      process_large_climate_data full shape startDate endDate dataType =
        (.noDataWarning, 0)) ∧
    (2 ≤ full.latCoords.length →
      2 ≤ (slicedOf full shape startDate endDate).latCoords.length →
      (slicedOf full shape startDate endDate).lonCoords.length ≠ 0 →
      (slicedOf full shape startDate endDate).timeLen = 0 →
      process_large_climate_data full shape startDate endDate dataType =
        (.errorReported "IndexError: index 0 is out of bounds", 0)) ∧
    (full.latCoords.length < 2 →
      process_large_climate_data full shape startDate endDate dataType =
        (.errorReported "IndexError: list index out of range", 0)) ∧
    (2 ≤ full.latCoords.length →
      (slicedOf full shape startDate endDate).latCoords.length < 2 →
      process_large_climate_data full shape startDate endDate dataType =
        (.errorReported "IndexError: list index out of range", 0)) ∧
    (dateLe startDate endDate = false →
      (slicedOf full shape startDate endDate).timeLen = 0) := by
  unfold process_large_climate_data processLargeWith
  by_cases hf : full.latCoords.length < 2
  · rw [if_pos hf]
    refine ⟨fun h2 _ _ => absurd h2 (by omega), fun h2 _ _ _ => absurd h2 (by omega),
      fun _ => rfl, fun h2 _ => absurd h2 (by omega), fun hse => ?_⟩
    simp only [slicedOf, sliceArray]
    rw [List.length_eq_zero]
    apply List.filter_eq_nil.mpr
    intro t _
    simp [dateLe_window_empty hse]
  · rw [if_neg hf]
    refine ⟨?_, ?_, fun hlt => absurd hlt hf, ?_, fun hse => ?_⟩
    · intro _ hlat2 hlon
      have harr : processArrayWith (stdOv shape) (fun _ => true)
          (slicedOf full shape startDate endDate) startDate dataType =
            .noCells := by
        unfold processArrayWith
        rw [if_neg (by omega), if_pos (by simp [hlon])]
      rw [harr]
    · intro _ hlat2 hlon htime
      have harr : processArrayWith (stdOv shape) (fun _ => true)
          (slicedOf full shape startDate endDate) startDate dataType =
            .raised "IndexError: index 0 is out of bounds" := by
        unfold processArrayWith
        rw [if_neg (show ¬(slicedOf full shape startDate
              endDate).latCoords.length < 2 by omega),
          if_neg (show ¬((slicedOf full shape startDate
              endDate).latCoords.length *
            (slicedOf full shape startDate endDate).lonCoords.length = 0)
            from Nat.mul_ne_zero (by omega) hlon),
          if_pos htime]
      rw [harr]
    · intro _ hlat2
      have harr : processArrayWith (stdOv shape) (fun _ => true)
          (slicedOf full shape startDate endDate) startDate dataType =
            .raised "IndexError: list index out of range" := by
        unfold processArrayWith
        rw [if_pos hlat2]
      rw [harr]
    · simp only [slicedOf, sliceArray]
      rw [List.length_eq_zero]
      apply List.filter_eq_nil.mpr
      intro t _
      simp [dateLe_window_empty hse]

/-- Witness for C5's amended statement: an empty temporal window over a
nonempty spatial grid is reported through the error channel. -/
theorem C5_witness :
    (slicedOf wFullEmptyTime wShapeUnit "1995-01-01" "1995-12-31").timeLen = 0 ∧
    process_large_climate_data wFullEmptyTime wShapeUnit "1995-01-01"
        "1995-12-31" "rainfall" =
      (.errorReported "IndexError: index 0 is out of bounds", 0) :=
  ⟨by decide,
   (C5_empty_window_behaviour wFullEmptyTime wShapeUnit "1995-01-01"
     "1995-12-31" "rainfall").2.1 (by decide) (by decide) (by decide)
     (by decide)⟩

/-- Counterexample to C5 as stated: a requested date window entirely
outside the dataset's time coverage, over a nonempty spatial grid, ends in
an error report (an IndexError caught by the per-dataset handler), not in a
non-fatal "no data in window" outcome. -/
theorem C5_counterexample :
    process_large_climate_data wFullEmptyTime wShapeUnit "1995-01-01"
        "1995-12-31" "rainfall" =
      (.errorReported "IndexError: index 0 is out of bounds", 0) ∧
    (RunOutcome.errorReported "IndexError: index 0 is out of bounds").isError
      = true ∧
    RunOutcome.errorReported "IndexError: index 0 is out of bounds" ≠
      RunOutcome.noDataWarning :=
  ⟨by decide, by decide, by decide⟩

/-! ### Claim C8 -/

/-- C8: a geometry failure while intersecting a single cell is absorbed:
the failing cell never qualifies, the scan's stations and files are exactly
those of the qualifying cells (so the failing cell appears in neither the
registry nor the record files, with no partial data), ids remain the
contiguous sequence 1..N, and each station has exactly one record file. -/
theorem C8_geometry_failure_skips_cell (ov : Rect → Except Unit (List Rect))
    (insOk : ℕ → Bool) (da : DataArray) (startDate dataType : String)
    (c : ℕ × ℕ) (st : ScanState)
    (hc : ov (cellRectR da (resolutionOf da) c) = .error ())
    (h : processArrayWith ov insOk da startDate dataType = .done st) :
    c ∉ createdCellsW ov da ∧
    st.stations = stationsFrom da dataType 1 (createdCellsW ov da) ∧
    st.files = filesFrom da insOk startDate dataType 1 (createdCellsW ov da) ∧
    st.stations.map Station.id = List.range' 1 st.stations.length ∧
    st.files.length = st.stations.length := by
  rcases processArrayWith_done h with ⟨hst, -, -, -⟩
  have hnq : cellQual ov (cellRectR da (resolutionOf da) c) = false := by
    unfold cellQual
    rw [hc]
  refine ⟨?_, ?_, ?_, ?_, ?_⟩
  · intro hmem
    unfold createdCellsW at hmem
    rcases List.mem_filter.mp hmem with ⟨-, hq⟩
    rw [hnq] at hq
    cases hq
  · rw [hst]
  · rw [hst]
  · rw [hst]
    simp only
    rw [stationsFrom_map_id, stationsFrom_length]
  · rw [hst]
    simp only
    rw [filesFrom_length, stationsFrom_length]

/-- Witness for C8: the overlay fails at cell (0, 0), which the boundary
fully covers; the scan continues, cell (1, 0) becomes station 1, and no
trace of cell (0, 0) remains. -/
theorem C8_witness :
    wOvFail (cellRectR wDa (resolutionOf wDa) (0, 0)) = .error () ∧
    processArrayWith wOvFail (fun _ => true) wDa "1990-01-01" "rainfall" =
      .done ⟨2, [⟨1, "RAINFALL1", 1, 0, ["0", "0", "0"]⟩],
             [("RAINFALL1.csv", "19900101\n0\n0\n0\n")]⟩ ∧
    ((0, 0) ∉ createdCellsW wOvFail wDa ∧
     (ScanState.mk 2 [⟨1, "RAINFALL1", 1, 0, ["0", "0", "0"]⟩]
        [("RAINFALL1.csv", "19900101\n0\n0\n0\n")]).stations =
       stationsFrom wDa "rainfall" 1 (createdCellsW wOvFail wDa) ∧
     (ScanState.mk 2 [⟨1, "RAINFALL1", 1, 0, ["0", "0", "0"]⟩]
        [("RAINFALL1.csv", "19900101\n0\n0\n0\n")]).files =
       filesFrom wDa (fun _ => true) "1990-01-01" "rainfall" 1
         (createdCellsW wOvFail wDa) ∧
     (ScanState.mk 2 [⟨1, "RAINFALL1", 1, 0, ["0", "0", "0"]⟩]
        [("RAINFALL1.csv", "19900101\n0\n0\n0\n")]).stations.map Station.id =
       List.range' 1 1 ∧
     (1 : ℕ) = 1) := by
  have harr : processArrayWith wOvFail (fun _ => true) wDa "1990-01-01"
      "rainfall" =
        .done ⟨2, [⟨1, "RAINFALL1", 1, 0, ["0", "0", "0"]⟩],
               [("RAINFALL1.csv", "19900101\n0\n0\n0\n")]⟩ := by decide
  have h8 := C8_geometry_failure_skips_cell wOvFail (fun _ => true) wDa
    "1990-01-01" "rainfall" (0, 0)
    ⟨2, [⟨1, "RAINFALL1", 1, 0, ["0", "0", "0"]⟩],
     [("RAINFALL1.csv", "19900101\n0\n0\n0\n")]⟩ rfl harr
  exact ⟨rfl, harr, h8.1, h8.2.1, h8.2.2.1, h8.2.2.2.1, rfl⟩

/-! ### Claim C9 -/

/-- C9 (amended): the resolution is derived from the first two latitude
samples, and with fewer than two samples the run fails at once (the
IndexError is caught by the per-dataset handler and reported, with zero
stations).  A derived resolution of 0 — equal adjacent samples — is NOT
rejected: no configuration failure occurs and the scan proceeds (the
degenerate cell rectangles then qualify nowhere, so such a scan completes
with zero stations). -/
theorem C9_resolution_derivation (full : FullDataset) (shape : Boundary)
    (startDate endDate dataType : String) (da : DataArray)
    (hlt : full.latCoords.length < 2)
    (hres : resolutionOf da = 0)
    (hlat : 2 ≤ da.latCoords.length) (hlon : da.lonCoords.length ≠ 0)
    (htime : da.timeLen ≠ 0) :
    process_large_climate_data full shape startDate endDate dataType =
      (.errorReported "IndexError: list index out of range", 0) ∧
    ∀ insOk,
      processArrayWith (stdOv shape) insOk da startDate dataType =
        .done ⟨1, [], []⟩ := by
  constructor
  · unfold process_large_climate_data processLargeWith
    rw [if_pos hlt]
  · intro insOk
    have hq : ∀ c, cellQual (stdOv shape) (cellRectR da (resolutionOf da) c)
        = false := by
      intro c
      by_contra hq
      have hq' : cellQual (stdOv shape) (cellRectR da (resolutionOf da) c)
          = true := by
        cases hqv : cellQual (stdOv shape) (cellRectR da (resolutionOf da) c)
        · exact absurd hqv hq
        · rfl
      have hpos := (cellQual_std_iff shape _).mp hq'
      rcases (interAreaSum_pos_iff _ _).mp hpos with ⟨f, -, hfpos⟩
      have hproper := (Rect.area_pos_iff_proper _).mp hfpos
      have hgp := Rect.proper_of_inter_proper hproper
      rw [Rect.proper_iff] at hgp
      rcases hgp with ⟨hx, -⟩
      unfold cellRectR cellRect at hx
      rw [hres] at hx
      simp at hx
    have hcreated : createdCellsW (stdOv shape) da = [] := by
      unfold createdCellsW
      apply List.filter_eq_nil.mpr
      intro c _
      simp [hq c]
    unfold processArrayWith
    rw [if_neg (show ¬da.latCoords.length < 2 by omega),
      if_neg (show ¬(da.latCoords.length * da.lonCoords.length = 0)
        from Nat.mul_ne_zero (by omega) hlon),
      if_neg htime, foldl_processCell]
    have hfil : ((gridCells da).filter fun c =>
        cellQual (stdOv shape) (cellRectR da (resolutionOf da) c)) = [] :=
      hcreated
    rw [hfil]
    simp [stationsFrom, filesFrom]

/-- Witness for C9's amended statement: a one-sample latitude axis fails,
while a resolution-0 grid (equal samples) scans to completion with zero
stations. -/
theorem C9_witness :
    (FullDataset.mk ["1990-01-01"] [5] [3] fun _ _ _ => "0").latCoords.length
        < 2 ∧
    resolutionOf ⟨1, [5, 5], [3], fun _ _ => ["0"]⟩ = 0 ∧
    process_large_climate_data
        (FullDataset.mk ["1990-01-01"] [5] [3] fun _ _ _ => "0") wShapeBig
        "1990-01-01" "1990-12-31" "rainfall" =
      (.errorReported "IndexError: list index out of range", 0) ∧
    processArrayWith (stdOv wShapeBig) (fun _ => true)
        ⟨1, [5, 5], [3], fun _ _ => ["0"]⟩ "1990-01-01" "rainfall" =
      .done ⟨1, [], []⟩ := by
  have h9 := C9_resolution_derivation
    (FullDataset.mk ["1990-01-01"] [5] [3] fun _ _ _ => "0") wShapeBig
    "1990-01-01" "1990-12-31" "rainfall"
    ⟨1, [5, 5], [3], fun _ _ => ["0"]⟩
    (by decide) (by decide) (by decide) (by decide) (by decide)
  exact ⟨by decide, by decide, h9.1, h9.2 (fun _ => true)⟩

/-- Counterexample to C9 as stated: a dataset whose first two latitude
samples are equal (resolution 0) does not fail with a configuration
failure — the run proceeds to a normal completion with zero stations. -/
theorem C9_counterexample :
    process_large_climate_data wFullFlatLat wShapeBig "1990-01-01"
        "1990-12-31" "rainfall" = (.completed ⟨1, [], []⟩, 0) ∧
    (RunOutcome.completed ⟨1, [], []⟩).isError = false :=
  ⟨by decide, by decide⟩

/-! ### Claim C10 -/

/-- C10: a failure inside `insert_date_header` is swallowed: the scan's
stations, id consumption and station count are identical to a run where
every insertion succeeds; the record files are still written, and the file
of a station whose insertion failed holds exactly the bare series CSV,
lacking the date-header first line. -/
theorem C10_insert_failure_swallowed (da : DataArray) (shape : Boundary)
    (startDate dataType : String) (insOk : ℕ → Bool) (st st' : ScanState)
    (h : processArrayWith (stdOv shape) insOk da startDate dataType = .done st)
    (h' : processArrayWith (stdOv shape) (fun _ => true) da startDate dataType
      = .done st') :
    st.stations = st'.stations ∧ st.idx = st'.idx ∧
    st.files.length = st.stations.length ∧
    st.files = filesFrom da insOk startDate dataType 1 (createdCells shape da) ∧
    ∀ (k : ℕ) (c : ℕ × ℕ), insOk k = false →
      mkRecord da insOk startDate dataType k c =
        (strUpper dataType ++ toString k ++ ".csv",
          seriesCsv (da.values c.1 c.2)) := by
  rcases processArrayWith_done h with ⟨hst, -, -, -⟩
  rcases processArrayWith_done h' with ⟨hst', -, -, -⟩
  refine ⟨?_, ?_, ?_, ?_, ?_⟩
  · rw [hst, hst']
  · rw [hst, hst']
  · rw [hst]
    simp only
    rw [filesFrom_length, stationsFrom_length]
  · rw [hst]
    exact rfl
  · intro k c hk
    unfold mkRecord insert_date_header
    rw [hk]
    simp

/-- Witness for C10: with every insertion failing, the station is still
created and counted, and its record file holds the raw series without the
date line. -/
theorem C10_witness :
    processArrayWith (stdOv wShapeUnit) (fun _ => false) wDa "1990-01-01"
        "rainfall" =
      .done ⟨2, [⟨1, "RAINFALL1", 0, 0, ["10.2", "11.4", "9.8"]⟩],
             [("RAINFALL1.csv", "10.2\n11.4\n9.8\n")]⟩ ∧
    processArrayWith (stdOv wShapeUnit) (fun _ => true) wDa "1990-01-01"
        "rainfall" =
      .done ⟨2, [⟨1, "RAINFALL1", 0, 0, ["10.2", "11.4", "9.8"]⟩],
             [("RAINFALL1.csv", "19900101\n10.2\n11.4\n9.8\n")]⟩ ∧
    ((ScanState.mk 2 [⟨1, "RAINFALL1", 0, 0, ["10.2", "11.4", "9.8"]⟩]
        [("RAINFALL1.csv", "10.2\n11.4\n9.8\n")]).stations =
      (ScanState.mk 2 [⟨1, "RAINFALL1", 0, 0, ["10.2", "11.4", "9.8"]⟩]
        [("RAINFALL1.csv", "19900101\n10.2\n11.4\n9.8\n")]).stations ∧
     (2 : ℕ) = 2 ∧
     (1 : ℕ) = 1 ∧
     (ScanState.mk 2 [⟨1, "RAINFALL1", 0, 0, ["10.2", "11.4", "9.8"]⟩]
        [("RAINFALL1.csv", "10.2\n11.4\n9.8\n")]).files =
       filesFrom wDa (fun _ => false) "1990-01-01" "rainfall" 1
         (createdCells wShapeUnit wDa) ∧
     ∀ (k : ℕ) (c : ℕ × ℕ), (fun _ => false) k = false →
       mkRecord wDa (fun _ => false) "1990-01-01" "rainfall" k c =
         (strUpper "rainfall" ++ toString k ++ ".csv",
           seriesCsv (wDa.values c.1 c.2))) := by
  have hfail : processArrayWith (stdOv wShapeUnit) (fun _ => false) wDa
      "1990-01-01" "rainfall" =
        .done ⟨2, [⟨1, "RAINFALL1", 0, 0, ["10.2", "11.4", "9.8"]⟩],
               [("RAINFALL1.csv", "10.2\n11.4\n9.8\n")]⟩ := by decide
  have hok : processArrayWith (stdOv wShapeUnit) (fun _ => true) wDa
      "1990-01-01" "rainfall" =
        .done ⟨2, [⟨1, "RAINFALL1", 0, 0, ["10.2", "11.4", "9.8"]⟩],
               [("RAINFALL1.csv", "19900101\n10.2\n11.4\n9.8\n")]⟩ := by decide
  have h10 := C10_insert_failure_swallowed wDa wShapeUnit "1990-01-01"
    "rainfall" (fun _ => false)
    ⟨2, [⟨1, "RAINFALL1", 0, 0, ["10.2", "11.4", "9.8"]⟩],
     [("RAINFALL1.csv", "10.2\n11.4\n9.8\n")]⟩
    ⟨2, [⟨1, "RAINFALL1", 0, 0, ["10.2", "11.4", "9.8"]⟩],
     [("RAINFALL1.csv", "19900101\n10.2\n11.4\n9.8\n")]⟩ hfail hok
  exact ⟨hfail, hok, h10.1, rfl, rfl, h10.2.2.2.1, h10.2.2.2.2⟩

end SWAT
